import Mathlib

/-!
Shallow embedding of `logaut/helpers.py`: the `RegexConstrainedString`
class (a `str` subclass validated against a compiled regular expression at
construction time) and the `temporary_directory` context manager, together
with theorems about their behaviour.
-/

/-- Abstract syntax of the regular expressions used by `helpers.py` and the
specification's examples.  `anyChar` is `.` under `re.DOTALL` (it matches
every character, newlines included); `charRange lo hi` is a character
class such as `[a-z]`. -/
inductive Regex
  | empty
  | epsilon
  | anyChar
  | charRange (lo hi : Char)
  | alt (r s : Regex)
  | concat (r s : Regex)
  | star (r : Regex)
deriving DecidableEq

/-- Whether a regular expression accepts the empty string. -/
def nullable : Regex → Bool
  | .empty => false
  | .epsilon => true
  | .anyChar => false
  | .charRange _ _ => false
  | .alt r s => nullable r || nullable s
  | .concat r s => nullable r && nullable s
  | .star _ => true

/-- Brzozowski derivative of a regular expression by one character. -/
def rderiv : Regex → Char → Regex
  | .empty, _ => .empty
  | .epsilon, _ => .empty
  | .anyChar, _ => .epsilon
  | .charRange lo hi, c => if lo ≤ c ∧ c ≤ hi then .epsilon else .empty
  | .alt r s, c => .alt (rderiv r c) (rderiv s c)
  | .concat r s, c =>
      if nullable r then .alt (.concat (rderiv r c) s) (rderiv s c)
      else .concat (rderiv r c) s
  | .star r, c => .concat (rderiv r c) (.star r)

/-- Whether a regular expression matches an entire character list. -/
def matchList : Regex → List Char → Bool
  | r, [] => nullable r
  | r, c :: cs => matchList (rderiv r c) cs

/-- Python's `pattern.fullmatch(s)` as a Boolean: the entire string must
match the pattern (anchored at both ends). -/
def fullmatch (r : Regex) (s : String) : Bool :=
  matchList r s.data

/-- The default pattern of `RegexConstrainedString`:
`re.compile(".*", flags=re.DOTALL)` (helpers.py line 40). -/
def REGEX_default : Regex := Regex.star Regex.anyChar

/-- The pattern `^[a-z]+$` from the specification's example of a
specialized variant (under `fullmatch` the anchors are redundant, so the
pattern is `[a-z][a-z]*`). -/
def lcPlus : Regex :=
  Regex.concat (Regex.charRange 'a' 'z') (Regex.star (Regex.charRange 'a' 'z'))

/-- A variant of the constrained string, i.e. a concrete subclass of
`RegexConstrainedString`: a distinct class identity (`id`) together with
the class's `REGEX` attribute. -/
structure Variant where
  id : Nat
  regex : Regex
deriving DecidableEq

/-- The base class `RegexConstrainedString` itself, whose `REGEX` is the
default pattern. -/
def defaultVariant : Variant := { id := 0, regex := REGEX_default }

/-- A specialized subclass whose `REGEX` is `^[a-z]+$`. -/
def lcVariant : Variant := { id := 1, regex := lcPlus }

/-- An instance of some `RegexConstrainedString` variant: its address
(modelling Python object identity), its dynamic class, and the text it
holds (instances are `str` subclasses, so they hold text). -/
structure RCSInst where
  addr : Nat
  variant : Variant
  text : String
deriving DecidableEq

/-- A Python value passed to the constructor: an instance of some
constrained-string variant, a plain `str`, or an arbitrary other object
together with its `str()` conversion. -/
inductive PyValue
  | rcsVal (i : RCSInst)
  | strVal (s : String)
  | objVal (strOf : String)
deriving DecidableEq

/-- Python's `str(value)`: for a `str` (or a subclass instance), the held
text; for any other object, its string conversion. -/
def str_of : PyValue → String
  | .rcsVal i => i.text
  | .strVal s => s
  | .objVal s => s

/-- The `ValueError` raised by `RegexConstrainedString._handle_no_match`
(helpers.py lines 55-60).  Its message is formatted from the offending
value (`data=self`) and the rejecting pattern (`regex=self.REGEX`); the two
carried pieces of data are modelled structurally. -/
inductive PyError
  | valueError (data : String) (regex : Regex)
deriving DecidableEq

/-- `RegexConstrainedString.__new__` (helpers.py lines 42-47): if
`type(value) == cls` (exact dynamic-class equality, so instances of any
other class, subclasses and superclasses included, do not take this
branch), return `value` itself; otherwise `super().__new__(cls, value)`
allocates a fresh `cls`-instance (modelled at address `freshAddr`) holding
`str(value)`. -/
def RegexConstrainedString_new (cls : Variant) (value : PyValue) (freshAddr : Nat) : RCSInst :=
  match value with
  | .rcsVal i =>
      if i.variant = cls then i
      else { addr := freshAddr, variant := cls, text := i.text }
  | .strVal s => { addr := freshAddr, variant := cls, text := s }
  | .objVal s => { addr := freshAddr, variant := cls, text := s }

/-- What a constructor call produces: either a returned instance, or a
raised error. -/
inductive CtorResult
  | ok (i : RCSInst)
  | error (e : PyError)
deriving DecidableEq

/-- Result of a constructor call, recording also how many times
`self.REGEX.fullmatch(self)` (helpers.py line 52) was executed during the
call. -/
structure CtorTrace where
  result : CtorResult
  validationsRun : Nat
deriving DecidableEq

/-- The full constructor call `cls(value)`.  Python's `type.__call__` runs
`cls.__new__` and then, because the object returned by `__new__` is an
instance of `cls` on both of its branches, always runs `__init__` on that
object (helpers.py lines 49-53) — also when `__new__` returned the input
unchanged.  `__init__` evaluates `self.REGEX.fullmatch(self)` (where
`self.REGEX` resolves to the `REGEX` of the instance's class, i.e. `cls`)
and calls `_handle_no_match`, which raises `ValueError`, on a mismatch. -/
def RegexConstrainedString_call (cls : Variant) (value : PyValue) (freshAddr : Nat) : CtorTrace :=
  let inst := RegexConstrainedString_new cls value freshAddr
  if fullmatch cls.regex inst.text
  then { result := CtorResult.ok inst, validationsRun := 1 }
  else { result := CtorResult.error (PyError.valueError inst.text cls.regex), validationsRun := 1 }

/-- Python exceptions relevant to the temporary-directory scope. -/
inductive Exc
  | permissionError
  | osError
  | other (n : Nat)
deriving DecidableEq

/-- What the scope body of the context manager does: complete normally, or
raise an exception. -/
inductive BodyRun
  | completes
  | raises (e : Exc)
deriving DecidableEq

/-- Outcome `temp_dir.cleanup()` would have if it were invoked: it either
removes the directory tree and returns, or raises some exception. -/
inductive CleanupOutcome
  | succeeds
  | raises (e : Exc)
deriving DecidableEq

/-- Observable outcome of one `with temporary_directory() as p:` scope:
whether the created directory still exists at scope exit, and which
exception (if any) propagates to the caller. -/
structure ScopeResult where
  dirExistsAfter : Bool
  raised : Option Exc
deriving DecidableEq

/-- `temporary_directory` (helpers.py lines 63-81) under
`contextlib.contextmanager` semantics, parametrised by what the scope body
does and by the outcome `temp_dir.cleanup()` would have.  The
`yield temp_path` (line 75) is not wrapped in `try/finally`, so when the
body raises, the exception is thrown into the generator at the yield point
and propagates out of the generator at once: lines 78-81 never run, the
directory is not removed, and the body's exception reaches the caller.
When the body completes normally, `temp_dir.cleanup()` runs inside
`try ... except PermissionError: pass` (lines 78-81): a `PermissionError`
is swallowed (leaving whatever cleanup failed to delete in place), any
other exception propagates, and a successful cleanup removes the
directory. -/
def temporary_directory_run (body : BodyRun) (cleanup : CleanupOutcome) : ScopeResult :=
  match body with
  | .raises e => { dirExistsAfter := true, raised := some e }
  | .completes =>
    match cleanup with
    | .succeeds => { dirExistsAfter := false, raised := none }
    | .raises e =>
        if e = Exc.permissionError
        then { dirExistsAfter := true, raised := none }
        else { dirExistsAfter := true, raised := some e }

/-- Matching an alternation is the disjunction of the two matchings. -/
theorem matchList_alt (cs : List Char) :
    ∀ r s : Regex, matchList (Regex.alt r s) cs = (matchList r cs || matchList s cs) := by
  induction cs with
  | nil => intro r s; rfl
  | cons c cs ih =>
      intro r s
      show matchList (rderiv (Regex.alt r s) c) cs = _
      simp only [rderiv]
      exact ih (rderiv r c) (rderiv s c)

/-- A concatenation whose left factor is the empty language matches
nothing. -/
theorem matchList_concat_empty (cs : List Char) (s : Regex) :
    matchList (Regex.concat Regex.empty s) cs = false := by
  induction cs generalizing s with
  | nil => rfl
  | cons c cs ih =>
      show matchList (rderiv (Regex.concat Regex.empty s) c) cs = false
      simp only [rderiv, nullable]
      exact ih s

/-- `ε · (anyChar)*` matches every character list. -/
theorem matchList_eps_star_any (cs : List Char) :
    matchList (Regex.concat Regex.epsilon (Regex.star Regex.anyChar)) cs = true := by
  induction cs with
  | nil => rfl
  | cons c cs ih =>
      show matchList
        (rderiv (Regex.concat Regex.epsilon (Regex.star Regex.anyChar)) c) cs = true
      simp only [rderiv, nullable, if_true]
      rw [matchList_alt]
      simp [matchList_concat_empty, ih]

/-- `(anyChar)*`, the default pattern `.*` under `re.DOTALL`, matches every
character list. -/
theorem star_any_matches (cs : List Char) :
    matchList (Regex.star Regex.anyChar) cs = true := by
  cases cs with
  | nil => rfl
  | cons c cs =>
      show matchList (rderiv (Regex.star Regex.anyChar) c) cs = true
      exact matchList_eps_star_any cs

/-- The default pattern fullmatches every string. -/
theorem fullmatch_default (s : String) : fullmatch REGEX_default s = true :=
  star_any_matches s.data

/-- C1: at the failing input — the scope body raises an exception — the
code skips `temp_dir.cleanup()` entirely, because the `yield` is not
wrapped in `try/finally`: the directory still exists at scope exit, while
the body's exception does propagate to the caller.  This contradicts the
claimed cleanup-on-error, though the propagation half of the claim holds. -/
theorem error_path_skips_cleanup :
    temporary_directory_run (BodyRun.raises (Exc.other 0)) CleanupOutcome.succeeds
      = { dirExistsAfter := true, raised := some (Exc.other 0) } := rfl

/-- C2 (counterexample to the claim as stated): constructing from an
instance of the exact same variant does re-run validation.  `type.__call__`
invokes `__init__` on the object returned by `__new__` even when `__new__`
returned the input unchanged, so `self.REGEX.fullmatch(self)` is executed
once — not zero times. -/
theorem fast_path_still_validates :
    (RegexConstrainedString_call defaultVariant
        (PyValue.rcsVal { addr := 5, variant := defaultVariant, text := "abc" }) 9).validationsRun
      ≠ 0 := by decide

/-- C2 (amended): constructing from a value that is an instance of the
exact same variant returns that very instance (same object identity, no
copy), but the initializer still runs and re-validates the held text
against the pattern, executing `fullmatch` once; when the held text already
matches the pattern, this re-validation succeeds and the call returns the
input instance. -/
theorem fast_path_returns_same_instance (cls : Variant) (i : RCSInst) (a : Nat)
    (hv : i.variant = cls) (hm : fullmatch cls.regex i.text = true) :
    (RegexConstrainedString_call cls (PyValue.rcsVal i) a).result = CtorResult.ok i
    ∧ (RegexConstrainedString_call cls (PyValue.rcsVal i) a).validationsRun = 1 := by
  simp [RegexConstrainedString_call, RegexConstrainedString_new, hv, hm]

/-- C2 (witness): the amended statement at a concrete instance of the
default variant. -/
theorem fast_path_returns_same_instance_witness :
    (RegexConstrainedString_call defaultVariant
        (PyValue.rcsVal { addr := 5, variant := defaultVariant, text := "abc" }) 9).result
      = CtorResult.ok { addr := 5, variant := defaultVariant, text := "abc" }
    ∧ (RegexConstrainedString_call defaultVariant
        (PyValue.rcsVal { addr := 5, variant := defaultVariant, text := "abc" }) 9).validationsRun
      = 1 :=
  fast_path_returns_same_instance defaultVariant
    { addr := 5, variant := defaultVariant, text := "abc" } 9 rfl (by decide)

/-- C3: whenever the text held by the constructed object fails to fully
match the variant's pattern, the constructor call fails with the
`ValueError` carrying that offending value and the rejecting pattern; the
raise is the synchronous outcome of the construction itself, and nothing in
the module catches it. -/
theorem mismatch_raises_validation_error (cls : Variant) (v : PyValue) (a : Nat)
    (h : fullmatch cls.regex (RegexConstrainedString_new cls v a).text = false) :
    (RegexConstrainedString_call cls v a).result
      = CtorResult.error
          (PyError.valueError (RegexConstrainedString_new cls v a).text cls.regex) := by
  simp [RegexConstrainedString_call, h]

/-- C3 (witness): pattern `^[a-z]+$` rejects "abc1" with the error carrying
the value and the pattern. -/
theorem mismatch_raises_validation_error_witness :
    (RegexConstrainedString_call lcVariant (PyValue.strVal "abc1") 0).result
      = CtorResult.error
          (PyError.valueError
            (RegexConstrainedString_new lcVariant (PyValue.strVal "abc1") 0).text
            lcVariant.regex) :=
  mismatch_raises_validation_error lcVariant (PyValue.strVal "abc1") 0 (by decide)

/-- C4: validation is anchored end-to-end.  Construction on a plain string
succeeds exactly when the string fully matches the variant's pattern and
fails with the validation error otherwise; concretely for pattern
`^[a-z]+$`, "abc" succeeds with value "abc", while "abc1" fails although
its prefix "abc" is in the pattern's language. -/
theorem validation_is_anchored :
    ((RegexConstrainedString_call lcVariant (PyValue.strVal "abc") 0).result
        = CtorResult.ok { addr := 0, variant := lcVariant, text := "abc" })
    ∧ ((RegexConstrainedString_call lcVariant (PyValue.strVal "abc1") 0).result
        = CtorResult.error (PyError.valueError "abc1" lcVariant.regex))
    ∧ fullmatch lcVariant.regex "abc" = true
    ∧ (∀ (cls : Variant) (s : String) (a : Nat),
        fullmatch cls.regex s = true →
          (RegexConstrainedString_call cls (PyValue.strVal s) a).result
            = CtorResult.ok { addr := a, variant := cls, text := s })
    ∧ (∀ (cls : Variant) (s : String) (a : Nat),
        fullmatch cls.regex s = false →
          (RegexConstrainedString_call cls (PyValue.strVal s) a).result
            = CtorResult.error (PyError.valueError s cls.regex)) := by
  refine ⟨by decide, by decide, by decide, ?_, ?_⟩
  · intro cls s a h
    simp [RegexConstrainedString_call, RegexConstrainedString_new, h]
  · intro cls s a h
    simp [RegexConstrainedString_call, RegexConstrainedString_new, h]

/-- C4 (witness): the general success direction at a concrete input. -/
theorem validation_is_anchored_witness :
    (RegexConstrainedString_call lcVariant (PyValue.strVal "zz") 3).result
      = CtorResult.ok { addr := 3, variant := lcVariant, text := "zz" } :=
  validation_is_anchored.2.2.2.1 lcVariant "zz" 3 (by decide)

/-- C5: the default variant accepts every text (its pattern `.*` under
`re.DOTALL` fullmatches every string, newlines included) and the
constructed value holds that text exactly. -/
theorem default_variant_accepts_any_text (s : String) (a : Nat) :
    (RegexConstrainedString_call defaultVariant (PyValue.strVal s) a).result
      = CtorResult.ok { addr := a, variant := defaultVariant, text := s } := by
  simp [RegexConstrainedString_call, RegexConstrainedString_new, defaultVariant,
    fullmatch_default]

/-- C5 (witness): the multi-line example "line1\nline2" succeeds and is
preserved exactly. -/
theorem default_variant_accepts_any_text_witness :
    (RegexConstrainedString_call defaultVariant (PyValue.strVal "line1\nline2") 0).result
      = CtorResult.ok { addr := 0, variant := defaultVariant, text := "line1\nline2" } :=
  default_variant_accepts_any_text "line1\nline2" 0

/-- C6: in the release step (reached when the body completed normally), a
`PermissionError` raised by `temp_dir.cleanup()` is swallowed and the scope
exits with no exception, while an exception of any other type propagates to
the caller. -/
theorem cleanup_permission_error_swallowed :
    ((temporary_directory_run BodyRun.completes
        (CleanupOutcome.raises Exc.permissionError)).raised = none)
    ∧ (∀ e : Exc, e ≠ Exc.permissionError →
        (temporary_directory_run BodyRun.completes (CleanupOutcome.raises e)).raised
          = some e) := by
  refine ⟨rfl, ?_⟩
  intro e he
  simp [temporary_directory_run, he]

/-- C6 (witness): an OSError-style cleanup failure propagates. -/
theorem cleanup_permission_error_swallowed_witness :
    (temporary_directory_run BodyRun.completes (CleanupOutcome.raises Exc.osError)).raised
      = some Exc.osError :=
  cleanup_permission_error_swallowed.2 Exc.osError (by decide)

/-- C7: every instance returned by a successful constructor call has the
target variant as its class and text that fully matches that variant's
pattern (the whole text, not merely a substring); the one error condition,
pattern mismatch, is raised by the constructor call itself, so it can never
surface at a later use of a returned instance. -/
theorem constructed_instance_invariant (cls : Variant) (v : PyValue) (a : Nat) (inst : RCSInst)
    (h : (RegexConstrainedString_call cls v a).result = CtorResult.ok inst) :
    inst.variant = cls ∧ fullmatch cls.regex inst.text = true := by
  by_cases hb : fullmatch cls.regex (RegexConstrainedString_new cls v a).text = true
  · have hinst : inst = RegexConstrainedString_new cls v a := by
      simp [RegexConstrainedString_call, hb] at h
      exact h.symm
    subst hinst
    refine ⟨?_, hb⟩
    cases v with
    | rcsVal i =>
        by_cases hv : i.variant = cls
        · simp [RegexConstrainedString_new, hv]
        · simp [RegexConstrainedString_new, hv]
    | strVal s => rfl
    | objVal s => rfl
  · rw [Bool.not_eq_true] at hb
    simp [RegexConstrainedString_call, hb] at h

/-- C7 (witness): the invariant at a concrete successful construction. -/
theorem constructed_instance_invariant_witness :
    ({ addr := 0, variant := lcVariant, text := "abc" } : RCSInst).variant = lcVariant
    ∧ fullmatch lcVariant.regex
        ({ addr := 0, variant := lcVariant, text := "abc" } : RCSInst).text = true :=
  constructed_instance_invariant lcVariant (PyValue.strVal "abc") 0
    { addr := 0, variant := lcVariant, text := "abc" } (by decide)

/-- C8: when the scope body completes normally and `temp_dir.cleanup()`
succeeds, the directory no longer exists at scope exit and no exception is
raised.  (The tolerated permission-denied failure is the separate release
branch treated in the release-step theorem.) -/
theorem normal_exit_removes_directory :
    temporary_directory_run BodyRun.completes CleanupOutcome.succeeds
      = { dirExistsAfter := false, raised := none } := rfl

/-- C9: the fast path applies only to the exact target variant.  From an
instance of any different variant, `__new__` allocates a fresh instance of
the target variant holding the same text (it never returns the input
object), and the constructor call validates that text against the target
variant's own pattern. -/
theorem different_variant_allocates (cls : Variant) (i : RCSInst) (a : Nat)
    (hv : i.variant ≠ cls) :
    RegexConstrainedString_new cls (PyValue.rcsVal i) a
      = { addr := a, variant := cls, text := i.text }
    ∧ RegexConstrainedString_new cls (PyValue.rcsVal i) a ≠ i
    ∧ (RegexConstrainedString_call cls (PyValue.rcsVal i) a).result
      = (if fullmatch cls.regex i.text = true
         then CtorResult.ok { addr := a, variant := cls, text := i.text }
         else CtorResult.error (PyError.valueError i.text cls.regex)) := by
  have hnew : RegexConstrainedString_new cls (PyValue.rcsVal i) a
      = { addr := a, variant := cls, text := i.text } := by
    simp [RegexConstrainedString_new, hv]
  refine ⟨hnew, ?_, ?_⟩
  · rw [hnew]
    intro heq
    exact hv (by rw [← heq])
  · by_cases hb : fullmatch cls.regex i.text = true
    · simp [RegexConstrainedString_call, hnew, hb]
    · rw [Bool.not_eq_true] at hb
      simp [RegexConstrainedString_call, hnew, hb]

/-- C9 (witness): constructing the lowercase variant from an instance of
the default variant allocates a fresh, distinct instance validated against
the lowercase pattern. -/
theorem different_variant_allocates_witness :
    RegexConstrainedString_new lcVariant
        (PyValue.rcsVal { addr := 0, variant := defaultVariant, text := "abc" }) 1
      = { addr := 1, variant := lcVariant, text := "abc" }
    ∧ RegexConstrainedString_new lcVariant
        (PyValue.rcsVal { addr := 0, variant := defaultVariant, text := "abc" }) 1
      ≠ { addr := 0, variant := defaultVariant, text := "abc" }
    ∧ (RegexConstrainedString_call lcVariant
        (PyValue.rcsVal { addr := 0, variant := defaultVariant, text := "abc" }) 1).result
      = (if fullmatch lcVariant.regex "abc" = true
         then CtorResult.ok { addr := 1, variant := lcVariant, text := "abc" }
         else CtorResult.error (PyError.valueError "abc" lcVariant.regex)) :=
  different_variant_allocates lcVariant
    { addr := 0, variant := defaultVariant, text := "abc" } 1 (by decide)

/-- C10: for any constructor input that is not an instance of the exact
target variant — a plain string, an instance of another variant, or an
arbitrary non-string object — the new instance holds exactly the string
conversion of the input, and pattern validation is applied to that
converted text. -/
theorem input_converted_to_text (cls : Variant) (v : PyValue) (a : Nat)
    (h : ∀ i : RCSInst, v = PyValue.rcsVal i → i.variant ≠ cls) :
    (RegexConstrainedString_new cls v a).text = str_of v
    ∧ (RegexConstrainedString_call cls v a).result
      = (if fullmatch cls.regex (str_of v) = true
         then CtorResult.ok { addr := a, variant := cls, text := str_of v }
         else CtorResult.error (PyError.valueError (str_of v) cls.regex)) := by
  have hnew : RegexConstrainedString_new cls v a
      = { addr := a, variant := cls, text := str_of v } := by
    cases v with
    | rcsVal i => simp [RegexConstrainedString_new, str_of, h i rfl]
    | strVal s => rfl
    | objVal s => rfl
  refine ⟨by rw [hnew], ?_⟩
  by_cases hb : fullmatch cls.regex (str_of v) = true
  · simp [RegexConstrainedString_call, hnew, hb]
  · rw [Bool.not_eq_true] at hb
    simp [RegexConstrainedString_call, hnew, hb]

/-- C10 (witness): constructing the default variant from a non-string
object whose `str()` is "42" yields an instance holding "42". -/
theorem input_converted_to_text_witness :
    (RegexConstrainedString_new defaultVariant (PyValue.objVal "42") 4).text
      = str_of (PyValue.objVal "42")
    ∧ (RegexConstrainedString_call defaultVariant (PyValue.objVal "42") 4).result
      = (if fullmatch defaultVariant.regex (str_of (PyValue.objVal "42")) = true
         then CtorResult.ok
           { addr := 4, variant := defaultVariant, text := str_of (PyValue.objVal "42") }
         else CtorResult.error
           (PyError.valueError (str_of (PyValue.objVal "42")) defaultVariant.regex)) :=
  input_converted_to_text defaultVariant (PyValue.objVal "42") 4
    (fun i hi => by cases hi)
